import Mathlib

/-!
Verification of the SneakersShopAPI service (src/main.go), a small HTTP
service exposing a favorites relation joined against a sneakers catalog.

The embedding is a shallow one: the database is a pure `Store` value, the
request handlers are functions from the store (plus the already-routed
request data) to a new store and an HTTP response, and the external pieces
the Go code delegates to (the SQL engine's ILIKE matching, the
encoding/json marshaller and unmarshaller, strconv.Atoi) are modelled as
explicit Lean functions, each documented at its definition.
-/

namespace Shop

/-- A row of the external `sneakers` relation, with the columns read by the
service: id, title, price, imageUrl, isFavorite, favoriteId, isAdded. -/
structure Sneaker where
  id : Int
  title : String
  price : Int
  imageUrl : String
  isFavorite : Bool
  favoriteId : Option Int
  isAdded : Bool
deriving Repr, DecidableEq

/-- A row of the external `favorite` relation: id (assigned by the store)
and item_id (reference to a sneaker). -/
structure Favorite where
  id : Int
  item_id : Int
deriving Repr, DecidableEq

/-- The external relational store: the two relations plus the id the store
will assign to the next inserted favorite row. -/
structure Store where
  favorites : List Favorite
  sneakers : List Sneaker
  nextFavId : Int
deriving Repr, DecidableEq

/-- An HTTP response as the endpoint handlers produce it: status code and
body text. -/
structure HResponse where
  status : Nat
  body : String
deriving Repr, DecidableEq

/-- An HTTP response together with its headers, as seen by the CORS
middleware, which manipulates headers. -/
structure HttpResponse where
  status : Nat
  headers : List (String × String)
  body : String
deriving Repr, DecidableEq

/-- Numeric value of a run of ASCII digits, accumulator style; `none` as
soon as a non-digit character appears. -/
def digitsVal : List Char → Nat → Option Nat
  | [], acc => some acc
  | c :: rest, acc =>
      if c.isDigit then digitsVal rest (acc * 10 + (c.toNat - 48)) else none

/-- Modelled from the spec: Go `strconv.Atoi`, which the delete handler uses
on the path segment. It accepts an optional leading sign followed by at
least one ASCII digit and fails on anything else (machine-integer range
overflow is not modelled; identifiers are modelled as unbounded integers). -/
def atoi (s : String) : Option Int :=
  match s.data with
  | [] => none
  | '+' :: rest => if rest = [] then none else (digitsVal rest 0).map Int.ofNat
  | '-' :: rest => if rest = [] then none else (digitsVal rest 0).map (fun n => -(n : Int))
  | l => (digitsVal l 0).map Int.ofNat

/-- The DELETE handler (src/main.go, deleteFavorite): parse the favoriteId
path segment with Atoi; on failure answer 400 with the fixed message and
execute no statement; on success execute the single DELETE statement and
answer 204 with an empty body, without inspecting the number of rows
affected. The third component records the SQL statements executed. -/
def deleteFavorite (st : Store) (favoriteIdSeg : String) :
    Store × HResponse × List String :=
  match atoi favoriteIdSeg with
  | none => (st, ⟨400, "Invalid favorite ID"⟩, [])
  | some n =>
      ({ st with favorites := st.favorites.filter (fun f => f.id != n) },
       ⟨204, ""⟩, ["DELETE FROM favorite WHERE id = $1"])

/-- The POST handler (src/main.go, postFavorite): the body, already run
through the JSON decoder, is either a decode error or the decoded item_id.
On decode error answer 400 with the raw error text and touch nothing; on
success insert one favorite row (id assigned by the store) and answer 201
with an empty body. -/
def postFavorite (st : Store) (body : Except String Int) : Store × HResponse :=
  match body with
  | .error e => (st, ⟨400, e⟩)
  | .ok itemId =>
      ({ st with favorites := st.favorites ++ [⟨st.nextFavId, itemId⟩],
                 nextFavId := st.nextFavId + 1 },
       ⟨201, ""⟩)

/-- A JSON value, as far as the POST body decoding needs one. -/
inductive JValue where
  | num : Int → JValue
  | str : String → JValue
  | boolean : Bool → JValue
  | null : JValue
deriving Repr, DecidableEq

/-- Modelled from the spec: Go `encoding/json` decoding of a JSON object
into the struct with the single tagged field item_id of type int. A present
numeric value is taken as is, a present value of another type is a decode
error, and an absent key leaves the field at its zero value 0. -/
def decodePostBody (obj : List (String × JValue)) : Except String Int :=
  match obj.lookup "item_id" with
  | some (.num n) => .ok n
  | some _ => .error "json: cannot unmarshal value into Go struct field .item_id of type int"
  | none => .ok 0

/-- The three response headers set by the CORS middleware in src/main.go. -/
def corsHeaders : List (String × String) :=
  [("Access-Control-Allow-Origin", "*"),
   ("Access-Control-Allow-Methods", "POST, GET, OPTIONS, PUT, DELETE"),
   ("Access-Control-Allow-Headers",
    "Accept, Content-Type, Content-Length, Accept-Encoding, X-CSRF-Token, Authorization")]

/-- The CORS middleware (src/main.go, enableCORS): set the three headers on
every response; on an OPTIONS request answer 200 with an empty body without
running the wrapped handler; otherwise delegate to the wrapped handler,
whose response carries the already-set headers in front of its own. -/
def enableCORS (next : String → Store → Store × HttpResponse)
    (method : String) (st : Store) : Store × HttpResponse :=
  if method = "OPTIONS" then (st, ⟨200, corsHeaders, ""⟩)
  else
    ((next method st).1,
     ⟨(next method st).2.status,
      corsHeaders ++ (next method st).2.headers,
      (next method st).2.body⟩)

/-- The query text built by the items handler (src/main.go, getItems):
start from the base SELECT, append the parameterized ILIKE filter when the
title search string is non-empty, and append an ORDER BY clause with the
raw sortBy value concatenated into the text when sortBy is non-empty. -/
def buildItemsQuery (searchQuery sortBy : String) : String :=
  let query := "SELECT * FROM sneakers"
  let query := if searchQuery ≠ "" then query ++ " WHERE title ILIKE $1" else query
  let query := if sortBy ≠ "" then query ++ " ORDER BY " ++ sortBy else query
  query

/-- C3: the GET /items query text is the base query, extended with the
ILIKE clause exactly when title is non-empty, and further extended with
ORDER BY followed by the raw sortBy value exactly when sortBy is
non-empty. -/
theorem getItems_query_text (searchQuery sortBy : String) :
    buildItemsQuery searchQuery sortBy =
      "SELECT * FROM sneakers"
        ++ (if searchQuery = "" then "" else " WHERE title ILIKE $1")
        ++ (if sortBy = "" then "" else " ORDER BY " ++ sortBy) := by
  unfold buildItemsQuery
  by_cases h1 : searchQuery = "" <;> by_cases h2 : sortBy = "" <;>
    simp [h1, h2, String.append_assoc] <;> rfl

/-- C4: the CORS middleware puts the three access-control headers on every
response; on an OPTIONS request it answers 200 with an empty body and an
unchanged store, never invoking the wrapped handler (the result is the same
for every handler); on any other method it delegates unconditionally to the
wrapped handler. -/
theorem enableCORS_spec (next : String → Store → Store × HttpResponse)
    (method : String) (st : Store) :
    (∀ h ∈ corsHeaders, h ∈ (enableCORS next method st).2.headers) ∧
    (method = "OPTIONS" → enableCORS next method st = (st, ⟨200, corsHeaders, ""⟩)) ∧
    (method ≠ "OPTIONS" →
      enableCORS next method st =
        ((next method st).1,
         ⟨(next method st).2.status,
          corsHeaders ++ (next method st).2.headers,
          (next method st).2.body⟩)) := by
  by_cases h : method = "OPTIONS" <;> simp [enableCORS, h]
  exact fun a b hm => Or.inl hm

/-- A wrapped handler that mutates the store and writes a body, used to
witness that the middleware short-circuits OPTIONS requests. -/
def mutatingHandler : String → Store → Store × HttpResponse :=
  fun _ st => ({ st with nextFavId := st.nextFavId + 1 }, ⟨201, [], "mutated"⟩)

/-- Witness for C4: on an OPTIONS request the middleware answers 200 with
empty body and the store is unchanged even though the wrapped handler would
have mutated it. -/
theorem enableCORS_spec_witness :
    enableCORS mutatingHandler "OPTIONS" ⟨[], [], 1⟩ =
      (⟨[], [], 1⟩, ⟨200, corsHeaders, ""⟩) :=
  (enableCORS_spec mutatingHandler "OPTIONS" ⟨[], [], 1⟩).2.1 rfl

/-- C5: the POST /favorites handler answers 400 with the raw decode-error
text exactly when the body fails to decode, leaving the favorite relation
unchanged; on successful decode it inserts one row with the given item
identifier and answers 201 with an empty body. -/
theorem postFavorite_spec (st : Store) (body : Except String Int) :
    ((postFavorite st body).2.status = 400 ↔ ∃ e, body = .error e) ∧
    (∀ e, body = .error e → postFavorite st body = (st, ⟨400, e⟩)) ∧
    (∀ i, body = .ok i →
      postFavorite st body =
        ({ st with favorites := st.favorites ++ [⟨st.nextFavId, i⟩],
                   nextFavId := st.nextFavId + 1 },
         ⟨201, ""⟩)) := by
  cases body <;> simp [postFavorite]

/-- Witness for C5: a malformed body produces 400 with the raw error text
and an unchanged store. -/
theorem postFavorite_spec_witness :
    postFavorite ⟨[], [], 1⟩ (.error "unexpected EOF") =
      (⟨[], [], 1⟩, ⟨400, "unexpected EOF"⟩) :=
  (postFavorite_spec ⟨[], [], 1⟩ (.error "unexpected EOF")).2.1 "unexpected EOF" rfl

/-- C6: a DELETE request whose path segment does not parse as an integer
answers 400 with exactly the body Invalid favorite ID, with an unchanged
store and no SQL statement executed. -/
theorem deleteFavorite_invalid_id (st : Store) (seg : String)
    (h : atoi seg = none) :
    deleteFavorite st seg = (st, ⟨400, "Invalid favorite ID"⟩, []) := by
  simp [deleteFavorite, h]

/-- Witness for C6 at the non-numeric segment abc. -/
theorem deleteFavorite_invalid_id_witness :
    deleteFavorite ⟨[⟨1, 2⟩], [], 2⟩ "abc" =
      (⟨[⟨1, 2⟩], [], 2⟩, ⟨400, "Invalid favorite ID"⟩, []) :=
  deleteFavorite_invalid_id ⟨[⟨1, 2⟩], [], 2⟩ "abc" (by decide)

/-- C7: whenever the path segment parses as an integer n the DELETE handler
executes the single DELETE statement, removes exactly the favorites with id
n, and answers 204 with an empty body — with no hypothesis that such a row
exists, since the rows-affected count is never inspected. -/
theorem deleteFavorite_success (st : Store) (seg : String) (n : Int)
    (h : atoi seg = some n) :
    deleteFavorite st seg =
      ({ st with favorites := st.favorites.filter (fun f => f.id != n) },
       ⟨204, ""⟩, ["DELETE FROM favorite WHERE id = $1"]) := by
  simp [deleteFavorite, h]

/-- Witness for C7: deleting id 7, which no favorite row carries, still
answers 204 with an empty body. -/
theorem deleteFavorite_success_witness :
    deleteFavorite ⟨[⟨1, 2⟩], [], 2⟩ "7" =
      (⟨[⟨1, 2⟩], [], 2⟩, ⟨204, ""⟩, ["DELETE FROM favorite WHERE id = $1"]) :=
  (deleteFavorite_success ⟨[⟨1, 2⟩], [], 2⟩ "7" 7 (by decide)).trans (by decide)

/-- C10: a body that is valid JSON but omits item_id (the empty object)
decodes without error to item_id 0, so the handler inserts a row with item
identifier 0 and answers 201. -/
theorem postFavorite_missing_item_id (st : Store) :
    decodePostBody [] = .ok 0 ∧
    postFavorite st (decodePostBody []) =
      ({ st with favorites := st.favorites ++ [⟨st.nextFavId, 0⟩],
                 nextFavId := st.nextFavId + 1 },
       ⟨201, ""⟩) := by
  exact ⟨rfl, by simp [postFavorite, decodePostBody, List.lookup]⟩

/-- A row of the GET /favorites result set: the favorite joined with its
sneaker, in the column order of the handler's SELECT. -/
structure FavRow where
  id : Int
  item_id : Int
  title : String
  price : Int
  imageUrl : String
  isFavorite : Bool
  favoriteId : Option Int
  isAdded : Bool
deriving Repr, DecidableEq

/-- Escape a string for inclusion in a JSON string literal (quote and
backslash, the cases that can arise from the modelled data). -/
def jsonEscape (s : String) : String :=
  String.join (s.data.map (fun c =>
    if c = '"' then "\\\"" else if c = '\\' then "\\\\" else String.singleton c))

/-- JSON text of a nullable integer column. -/
def encodeNullableInt : Option Int → String
  | none => "null"
  | some n => toString n

/-- JSON text of one favorites row, with the field names given by the Go
struct tags in getFavorites. -/
def encodeFavRow (r : FavRow) : String :=
  "\x7b\"id\":" ++ toString r.id ++
  ",\"item_id\":" ++ toString r.item_id ++
  ",\"title\":\"" ++ jsonEscape r.title ++
  "\",\"price\":" ++ toString r.price ++
  ",\"image_url\":\"" ++ jsonEscape r.imageUrl ++
  "\",\"is_favorite\":" ++ (if r.isFavorite then "true" else "false") ++
  ",\"favorite_id\":" ++ encodeNullableInt r.favoriteId ++
  ",\"is_added\":" ++ (if r.isAdded then "true" else "false") ++ "\x7d"

/-- JSON text of one catalog row, with the field names given by the Go
struct tags in getItems. -/
def encodeSneaker (s : Sneaker) : String :=
  "\x7b\"id\":" ++ toString s.id ++
  ",\"title\":\"" ++ jsonEscape s.title ++
  "\",\"price\":" ++ toString s.price ++
  ",\"image_url\":\"" ++ jsonEscape s.imageUrl ++
  "\",\"is_favorite\":" ++ (if s.isFavorite then "true" else "false") ++
  ",\"favorite_id\":" ++ encodeNullableInt s.favoriteId ++
  ",\"is_added\":" ++ (if s.isAdded then "true" else "false") ++ "\x7d"

/-- Modelled from the spec: Go `encoding/json` marshalling of the
accumulating slice. The slice is declared nil and only ever grown by
append, so it is nil exactly when no row was scanned, and a nil slice
marshals to the JSON literal null rather than to an empty array. -/
def goEncodeRows {α : Type} (encodeRow : α → String) : List α → String
  | [] => "null"
  | r :: rs => "[" ++ String.intercalate "," ((r :: rs).map encodeRow) ++ "]"

/-- The row-scanning loop shared by getFavorites and getItems: each cursor
step yields either a scanned row or a scan error; the first error ends the
request at once with status 500 and the raw error text as the whole body,
and if no step fails the accumulated rows are encoded into a 200 response. -/
def scanLoop {α : Type} (encodeRow : α → String) :
    List (Except String α) → List α → HResponse
  | [], acc => ⟨200, goEncodeRows encodeRow acc⟩
  | .error e :: _, _ => ⟨500, e⟩
  | .ok r :: rest, acc => scanLoop encodeRow rest (acc ++ [r])

/-- Common handler body for the two list endpoints: a failed query yields
500 with the raw error text, otherwise the cursor is scanned from an empty
accumulator. -/
def runQuery {α : Type} (encodeRow : α → String)
    (qres : Except String (List (Except String α))) : HResponse :=
  match qres with
  | .error e => ⟨500, e⟩
  | .ok rows => scanLoop encodeRow rows []

/-- The GET /favorites handler (src/main.go, getFavorites) over the driver
interface: the argument is the outcome of db.Query, each element of a
successful outcome the outcome of one rows.Scan. -/
def getFavoritesDriver (qres : Except String (List (Except String FavRow))) :
    HResponse :=
  runQuery encodeFavRow qres

/-- The GET /items handler (src/main.go, getItems) over the driver
interface, identical in structure to getFavoritesDriver. -/
def getItemsDriver (qres : Except String (List (Except String Sneaker))) :
    HResponse :=
  runQuery encodeSneaker qres

/-- The result set of the handler's INNER JOIN of favorite with sneakers on
item_id = sneakers.id: one row for every favorite and every sneaker whose
id equals the favorite's item_id. -/
def favRows (st : Store) : List FavRow :=
  st.favorites.flatMap (fun f =>
    (st.sneakers.filter (fun s => s.id == f.item_id)).map (fun s =>
      ⟨f.id, f.item_id, s.title, s.price, s.imageUrl, s.isFavorite,
       s.favoriteId, s.isAdded⟩))

/-- The GET /favorites handler against a healthy store: the join result is
delivered row by row without errors. -/
def getFavorites (st : Store) : HResponse :=
  getFavoritesDriver (.ok ((favRows st).map .ok))

/-- Modelled from the spec: evaluation of a SQL LIKE / ILIKE pattern by the
external store. Percent matches any character sequence, underscore matches
any single character, and every other pattern character matches a single
text character case-insensitively. No escape character is modelled. -/
def likeMatch : List Char → List Char → Bool
  | [], s => s.isEmpty
  | p :: ps, s =>
      if p = '%' then s.tails.any (fun t => likeMatch ps t)
      else
        match s with
        | [] => false
        | d :: t =>
            if p = '_' then likeMatch ps t
            else (p.toLower == d.toLower) && likeMatch ps t

/-- ILIKE on strings: does the text match the pattern. -/
def ilike (text pattern : String) : Bool :=
  likeMatch pattern.data text.data

/-- The rows the store returns for the items query: all sneakers when the
title search string is empty, otherwise those whose title matches the
pattern percent-search-percent, exactly as the handler binds $1. -/
def dbItemsRows (sneakers : List Sneaker) (searchQuery : String) : List Sneaker :=
  if searchQuery = "" then sneakers
  else sneakers.filter (fun s => ilike s.title ("%" ++ searchQuery ++ "%"))

/-- The GET /items handler against a healthy store (row order of the store,
no ORDER BY applied): the selected rows are delivered without errors. -/
def getItems (st : Store) (searchQuery : String) : HResponse :=
  getItemsDriver (.ok ((dbItemsRows st.sneakers searchQuery).map .ok))

/-- A scan loop that hits an error row answers 500 with exactly that error
text, whatever was accumulated and whatever follows. -/
theorem scanLoop_error {α : Type} (encodeRow : α → String) (pre : List α)
    (e : String) (post : List (Except String α)) (acc : List α) :
    scanLoop encodeRow (pre.map .ok ++ .error e :: post) acc = ⟨500, e⟩ := by
  induction pre generalizing acc with
  | nil => simp [scanLoop]
  | cons a l ih => simp [scanLoop, ih]

/-- C8: for both list handlers, a failed query and a failed row scan each
produce status 500 whose body is exactly the raw error text — the request
ends at once, with no part of the JSON success output in the body. -/
theorem handler_errors_500 (e : String)
    (preF : List FavRow) (postF : List (Except String FavRow))
    (preI : List Sneaker) (postI : List (Except String Sneaker)) :
    getFavoritesDriver (.error e) = ⟨500, e⟩ ∧
    getFavoritesDriver (.ok (preF.map .ok ++ .error e :: postF)) = ⟨500, e⟩ ∧
    getItemsDriver (.error e) = ⟨500, e⟩ ∧
    getItemsDriver (.ok (preI.map .ok ++ .error e :: postI)) = ⟨500, e⟩ := by
  refine ⟨rfl, ?_, rfl, ?_⟩ <;>
    simp [getFavoritesDriver, getItemsDriver, runQuery, scanLoop_error]

/-- C9: when the query yields zero rows, both list handlers answer 200 with
body exactly the JSON literal null — never the empty-array text. -/
theorem empty_result_null (st st2 : Store)
    (h : favRows st = []) (h2 : st2.sneakers = []) :
    getFavorites st = ⟨200, "null"⟩ ∧
    getItems st2 "" = ⟨200, "null"⟩ ∧
    getFavorites st ≠ ⟨200, "[]"⟩ := by
  refine ⟨?_, ?_, ?_⟩
  · simp [getFavorites, getFavoritesDriver, runQuery, h, scanLoop, goEncodeRows]
  · simp [getItems, getItemsDriver, runQuery, dbItemsRows, h2, scanLoop, goEncodeRows]
  · simp [getFavorites, getFavoritesDriver, runQuery, h, scanLoop, goEncodeRows]

/-- Witness for C9: the empty store produces the body null on both
endpoints. -/
theorem empty_result_null_witness :
    getFavorites ⟨[], [], 1⟩ = ⟨200, "null"⟩ ∧
    getItems ⟨[], [], 1⟩ "" = ⟨200, "null"⟩ ∧
    getFavorites ⟨[], [], 1⟩ ≠ ⟨200, "[]"⟩ :=
  empty_result_null ⟨[], [], 1⟩ ⟨[], [], 1⟩ rfl rfl

/-- In a sneaker list with pairwise distinct ids, filtering for the id of a
member yields exactly that member. -/
theorem filter_id_eq_singleton (l : List Sneaker) (i : Int) (s : Sneaker)
    (hnd : (l.map Sneaker.id).Nodup) (hs : s ∈ l) (hid : s.id = i) :
    l.filter (fun x => x.id == i) = [s] := by
  induction l with
  | nil => cases hs
  | cons a t ih =>
    rw [List.map_cons, List.nodup_cons] at hnd
    rcases List.mem_cons.mp hs with rfl | hmem
    · have hnone : ∀ x ∈ t, ¬((fun x => x.id == i) x = true) := by
        intro x hx hbx
        exact hnd.1 (hid ▸ (beq_iff_eq.mp hbx) ▸ List.mem_map_of_mem Sneaker.id hx)
      rw [List.filter_cons_of_pos (by simpa using hid),
          List.filter_eq_nil_iff.mpr hnone]
    · have hne : ¬(a.id == i) = true := by
        intro hba
        exact hnd.1 ((beq_iff_eq.mp hba).symm ▸ hid ▸ List.mem_map_of_mem Sneaker.id hmem)
      rw [List.filter_cons, if_neg hne]
      exact ih hnd.2 hmem

/-- C1: with pairwise distinct sneaker ids, posting a favorite for an item
identifier that references an existing sneaker makes the favorites listing
exactly one entry longer, the new entry carrying that item identifier. -/
theorem postFavorite_then_getFavorites_adds_one (st : Store) (i : Int)
    (hnd : (st.sneakers.map Sneaker.id).Nodup)
    (hex : ∃ s ∈ st.sneakers, s.id = i) :
    ∃ r : FavRow,
      favRows (postFavorite st (.ok i)).1 = favRows st ++ [r] ∧
      r.item_id = i := by
  obtain ⟨s, hs, hid⟩ := hex
  refine ⟨⟨st.nextFavId, i, s.title, s.price, s.imageUrl, s.isFavorite,
           s.favoriteId, s.isAdded⟩, ?_, rfl⟩
  show favRows ⟨st.favorites ++ [⟨st.nextFavId, i⟩], st.sneakers, st.nextFavId + 1⟩ =
    favRows st ++ _
  unfold favRows
  simp [List.flatMap_append, filter_id_eq_singleton st.sneakers i s hnd hs hid]

/-- A one-sneaker catalog used as the C1 witness store. -/
def sneakerW : Sneaker := ⟨1, "Air Max", 100, "img/air.png", false, none, false⟩

/-- The C1 witness store: empty favorites, one catalog item. -/
def storeW : Store := ⟨[], [sneakerW], 1⟩

/-- Witness for C1: posting item 1 against the one-item store appends
exactly one joined row with item_id 1. -/
theorem postFavorite_then_getFavorites_adds_one_witness :
    ∃ r : FavRow,
      favRows (postFavorite storeW (.ok 1)).1 = favRows storeW ++ [r] ∧
      r.item_id = 1 :=
  postFavorite_then_getFavorites_adds_one storeW 1 (by decide)
    ⟨sneakerW, by simp [storeW], rfl⟩

/-- Statement taken from the spec's words, for comparison with the code's
ILIKE behaviour: the title contains the search string as a substring,
case-insensitively. -/
def titleContains (hay needle : String) : Prop :=
  (needle.data.map Char.toLower) <:+: (hay.data.map Char.toLower)

instance (hay needle : String) : Decidable (titleContains hay needle) :=
  List.decidableInfix _ _

/-- A single-letter catalog row used in the C2 counterexample. -/
def sneakerA : Sneaker := ⟨1, "a", 0, "", false, none, false⟩

/-- C2 counterexample: with the search string underscore, the handler's
ILIKE filter returns the row titled a, although that title does not contain
an underscore — a LIKE wildcard in the search string selects rows beyond
the substring reading. -/
theorem getItems_title_filter_cex :
    sneakerA ∈ dbItemsRows [sneakerA] "_" ∧
      ¬ titleContains sneakerA.title "_" := by
  decide

/-- A wildcard-free pattern followed by a single percent matches a text
exactly when the lowered pattern is a prefix of the lowered text. -/
theorem likeMatch_lit_percent :
    ∀ p : List Char, (∀ c ∈ p, c ≠ '%' ∧ c ≠ '_') →
      ∀ t : List Char,
        likeMatch (p ++ ['%']) t = true ↔
          (p.map Char.toLower) <+: (t.map Char.toLower) := by
  intro p
  induction p with
  | nil =>
    intro _ t
    simp only [List.nil_append, List.map_nil]
    constructor
    · intro _
      exact List.nil_prefix
    · intro _
      simp only [likeMatch, eq_self_iff_true, if_true, List.any_eq_true]
      exact ⟨[], (List.mem_tails _ _).mpr List.nil_suffix, rfl⟩
  | cons c p' ih =>
    intro hw t
    have hc := hw c (List.mem_cons_self c p')
    have hw' : ∀ x ∈ p', x ≠ '%' ∧ x ≠ '_' :=
      fun x hx => hw x (List.mem_cons_of_mem c hx)
    cases t with
    | nil => simp [likeMatch, hc.1]
    | cons d t' =>
      simp only [List.cons_append, likeMatch, if_neg hc.1, if_neg hc.2,
        Bool.and_eq_true, beq_iff_eq, List.map_cons, List.cons_prefix_cons]
      exact and_congr_right fun _ => ih hw' t'

/-- The pattern percent-literal-percent matches a text exactly when the
lowered literal is an infix of the lowered text. -/
theorem likeMatch_wrap_percent (p : List Char)
    (hw : ∀ c ∈ p, c ≠ '%' ∧ c ≠ '_') (s : List Char) :
    likeMatch ('%' :: (p ++ ['%'])) s = true ↔
      (p.map Char.toLower) <:+: (s.map Char.toLower) := by
  rw [List.infix_iff_prefix_suffix]
  simp only [likeMatch, eq_self_iff_true, if_true, List.any_eq_true]
  constructor
  · rintro ⟨t, ht, hm⟩
    exact ⟨t.map Char.toLower, (likeMatch_lit_percent p hw t).mp hm,
      ((List.mem_tails _ _).mp ht).map _⟩
  · rintro ⟨u, hpre, hsuf⟩
    rw [← List.mem_tails, List.map_tails] at hsuf
    obtain ⟨t, htmem, rfl⟩ := List.mem_map.mp hsuf
    exact ⟨t, htmem, (likeMatch_lit_percent p hw t).mpr hpre⟩

/-- C2 (amended): for every non-empty search string that contains no LIKE
wildcard character (percent or underscore), the items handler returns
exactly the catalog rows whose title contains the search string as a
substring case-insensitively, and no other rows. -/
theorem getItems_title_filter_substring (q : String) (hq : q ≠ "")
    (hw : ∀ c ∈ q.data, c ≠ '%' ∧ c ≠ '_') (l : List Sneaker) :
    dbItemsRows l q = l.filter (fun s => decide (titleContains s.title q)) := by
  unfold dbItemsRows
  rw [if_neg hq]
  apply List.filter_congr
  intro s _
  have hd : ("%" ++ q ++ "%").data = '%' :: (q.data ++ ['%']) := by
    rw [String.data_append, String.data_append]
    rfl
  have h1 : ilike s.title ("%" ++ q ++ "%") = true ↔ titleContains s.title q := by
    unfold ilike titleContains
    rw [hd]
    exact likeMatch_wrap_percent q.data hw s.title.data
  cases hb : ilike s.title ("%" ++ q ++ "%") with
  | false =>
    rw [hb] at h1
    simp only [Bool.false_eq_true, false_iff] at h1
    simp [h1]
  | true =>
    rw [hb] at h1
    simp only [true_iff] at h1
    simp [h1]

/-- Two catalog rows used in the C2 witness, one whose title contains the
search string air and one whose title does not. -/
def sneakerAir : Sneaker := ⟨1, "Air Max", 100, "img/air.png", false, none, false⟩

/-- The non-matching catalog row of the C2 witness. -/
def sneakerClassic : Sneaker :=
  ⟨2, "Classic Runner", 120, "img/classic.png", false, none, false⟩

/-- Witness for C2 (amended) at the wildcard-free search string air over a
two-row catalog. -/
theorem getItems_title_filter_substring_witness :
    dbItemsRows [sneakerAir, sneakerClassic] "air" =
      [sneakerAir, sneakerClassic].filter
        (fun s => decide (titleContains s.title "air")) :=
  getItems_title_filter_substring "air" (by decide) (by decide)
    [sneakerAir, sneakerClassic]

end Shop
